import Mathlib

/-!
# Verification of the portfolio backend service (src/backend/main.py)

A shallow embedding of the FastAPI backend in `src/backend/main.py`.
The service is glue code around external services (a PostgreSQL database,
an S3 object store, the process environment), so the embedding makes the
externals explicit:

* the process environment is a function `Env := String → Option String`
  (`os.getenv`); the module-level reads at import time (the S3 client
  credentials and `S3_BUCKET_NAME`) see the *startup* environment, while
  `os.getenv` calls inside a handler see the *request-time* environment —
  `ProcState` carries both;
* the object store is a map from bucket name to the list of stored keys
  (`S3Store`); `list_objects_v2` without a continuation token returns at
  most one page of `MaxKeys = 1000` keys (the boto3 default);
* presigned-URL generation is a local signing computation, abstracted as
  a function from the request parameters to the signed URL string;
* the random identifier of an upload (`uuid.uuid4()`) enters a handler as
  the string it renders to in the f-string; a canonical uuid4 rendering
  is 36 characters long;
* the fallible external calls of a handler are summarised by an outcome
  argument (`DBOutcome`, `Except String Unit`), matching the `try/except`
  structure of the source.

JSON response bodies are modelled by the inductive `Json`; a handler
returns a `Response` (HTTP status plus body). FastAPI serialises a plain
`dict` return with status 200, and `HTTPException(status_code=500, detail=d)`
as status 500 with body `{"detail": d}`.
-/

/-- A JSON value, the shape of every response body the service emits. -/
inductive Json where
  | null
  | str (s : String)
  | num (n : Int)
  | bool (b : Bool)
  | arr (elems : List Json)
  | obj (fields : List (String × Json))
deriving Repr

/-- Field lookup in a JSON object (`none` on non-objects/absent fields). -/
def Json.lookup : Json → String → Option Json
  | .obj fields, key => fields.lookup key
  | _, _ => none

/-- How FastAPI serialises an optional string: `None` becomes JSON `null`. -/
def jsonOfOpt : Option String → Json
  | some s => Json.str s
  | none => Json.null

/-- An HTTP response: status code and JSON body. -/
structure Response where
  status : Nat
  body : Json
deriving Repr

/-- The process environment, as read by `os.getenv`. -/
def Env := String → Option String

/-- The environment the process sees: `startupEnv` is the environment at
module-import time (the module-level `os.getenv` calls: S3 credentials,
bucket name), `reqEnv` the one at the moment a handler runs (`os.getenv`
calls inside handler bodies). In the source both are the same mutable
process environment sampled at different times. -/
structure ProcState where
  startupEnv : Env
  reqEnv : Env

/-- `S3_BUCKET_NAME = os.getenv("S3_BUCKET_NAME")`, read once at import. -/
def S3_BUCKET_NAME (st : ProcState) : Option String :=
  st.startupEnv "S3_BUCKET_NAME"

/-- How a Python f-string renders a value that may be `None`. -/
def pyOptStr : Option String → String
  | some s => s
  | none => "None"

/-- The object store: each bucket name (as handed to the SDK, possibly
`None`) holds a list of object keys. -/
def S3Store := Option String → List String

/-- Python `str.split(sep)` for a one-character separator, on the string's
characters: always returns a non-empty list of (possibly empty) pieces. -/
def pySplit (sep : Char) : List Char → List (List Char)
  | [] => [[]]
  | c :: cs =>
    match pySplit sep cs with
    | [] => [[]]
    | piece :: rest =>
      if c = sep then [] :: piece :: rest else (c :: piece) :: rest

/-- `file.filename.split(".")[-1]`: the extension the upload handler
derives — the last piece of splitting the filename on `'.'`. -/
def pyExt (filename : String) : String :=
  String.mk ((pySplit '.' filename.data).getLastD [])

/-- `f"images/{uuid.uuid4()}.{ext}"`: the object key built by the upload
handler, with `u` the rendered random identifier. -/
def upload_key (filename u : String) : String :=
  "images/" ++ u ++ "." ++ pyExt filename

/-- `GET /health`. -/
def health_check : Response :=
  ⟨200, .obj [("status", .str "ok")]⟩

/-- `GET /` (the root handler); `loopTime` stands for the value of
`asyncio.get_event_loop().time()` at the request. It reads
`FRONTEND_DOMAIN` from the environment at request time. -/
def root (st : ProcState) (loopTime : Int) : Response :=
  ⟨200, .obj [
    ("message", .str "🚀 Deployment Successful!"),
    ("status", .str "running"),
    ("timestamp", .num loopTime),
    ("origin", jsonOfOpt (st.reqEnv "FRONTEND_DOMAIN"))]⟩

/-- `GET /api/hello`. -/
def api_hello : Response :=
  ⟨200, .obj [("message", .str "Hello from the backend!")]⟩

/-- What the external database calls of one `GET /api/data` request did:
`connectError` — `asyncpg.connect` raised (caught inside `connect_db`,
which then returns `None`); `queryError` — the connection was established
and `conn.fetchrow` raised; `success` — the fixed query returned its one
row, whose `current_time` column is carried as a string. -/
inductive DBOutcome where
  | connectError (msg : String)
  | queryError (msg : String)
  | success (currentTime : String)

/-- The result of `GET /api/data`, with the connection lifecycle made
explicit: `connOpened` — `connect_db` returned a live connection;
`connClosed` — `await conn.close()` ran before the handler returned. -/
structure GetDataTrace where
  response : Response
  connOpened : Bool
  connClosed : Bool

/-- `GET /api/data`. On connect failure `connect_db` returns `None` and
the handler returns `{"error": ...}` (status 200, FastAPI's default for a
plain dict). On a query error the `except` branch returns
`{"error": f"Server error: {e}"}` — and `conn.close()` on line 91 of the
source is skipped, since the exception was raised on line 90 before it. -/
def get_data (o : DBOutcome) : GetDataTrace :=
  match o with
  | .connectError _ =>
      ⟨⟨200, .obj [("error", .str "Database connection failed")]⟩, false, false⟩
  | .queryError msg =>
      ⟨⟨200, .obj [("error", .str ("Server error: " ++ msg))]⟩, true, false⟩
  | .success currentTime =>
      ⟨⟨200, .obj [
        ("Date", .str currentTime),
        ("message", .str "Hello from the database!")]⟩, true, true⟩

/-- `GET /api/debug-env`: returns the current (request-time) values of all
ten environment variables, in plaintext. -/
def debug_env (st : ProcState) : Response :=
  ⟨200, .obj [
    ("AWS_ACCESS_KEY_ID", jsonOfOpt (st.reqEnv "AWS_ACCESS_KEY_ID")),
    ("AWS_SECRET_ACCESS_KEY", jsonOfOpt (st.reqEnv "AWS_SECRET_ACCESS_KEY")),
    ("AWS_REGION", jsonOfOpt (st.reqEnv "AWS_REGION")),
    ("S3_BUCKET_NAME", jsonOfOpt (st.reqEnv "S3_BUCKET_NAME")),
    ("DB_USER", jsonOfOpt (st.reqEnv "DB_USER")),
    ("DB_PASSWORD", jsonOfOpt (st.reqEnv "DB_PASSWORD")),
    ("DB_NAME", jsonOfOpt (st.reqEnv "DB_NAME")),
    ("DB_HOST", jsonOfOpt (st.reqEnv "DB_HOST")),
    ("DB_PORT", jsonOfOpt (st.reqEnv "DB_PORT")),
    ("FRONTEND_DOMAIN", jsonOfOpt (st.reqEnv "FRONTEND_DOMAIN"))]⟩

/-- `POST /api/upload`. `u` is the string `uuid.uuid4()` renders to; `s3`
is the outcome of `s3_client.upload_fileobj` (`.error e` — it raised, so
the handler raises `HTTPException(500)`). On success the handler returns
the key, a public URL built by string concatenation from the startup-time
bucket name, the declared content type and the size. -/
def upload_file (st : ProcState) (filename contentType : String) (size : Nat)
    (u : String) (s3 : Except String Unit) : Response :=
  match s3 with
  | .error e => ⟨500, .obj [("detail", .str ("S3 upload failed: " ++ e))]⟩
  | .ok () =>
    let unique_filename := upload_key filename u
    let file_url := "https://" ++ pyOptStr (S3_BUCKET_NAME st)
      ++ ".s3.amazonaws.com/" ++ unique_filename
    ⟨200, .obj [
      ("message", .str "File uploaded successfully"),
      ("filename", .str unique_filename),
      ("file_url", .str file_url),
      ("content_type", .str contentType),
      ("size", .num size)]⟩

/-- One page of `list_objects_v2` without a continuation token: the first
`MaxKeys = 1000` keys of the bucket (boto3's default page size). -/
def list_objects_v2_keys (bucketKeys : List String) : List String :=
  bucketKeys.take 1000

/-- `GET /api/list-images`: one `list_objects_v2` call on the bucket named
at startup; the handler reads `Contents` of that single page and never
consumes a continuation token. -/
def list_images (st : ProcState) (store : S3Store) : Response :=
  let images := list_objects_v2_keys (store (S3_BUCKET_NAME st))
  ⟨200, .obj [("images", .arr (images.map .str))]⟩

/-- The parameters the handler hands to
`s3_client.generate_presigned_url('get_object', ...)`. -/
structure PresignRequest where
  method : String
  bucket : Option String
  key : String
  expiresIn : Nat
deriving Repr

/-- `GET /api/generate-presigned-url?filename=...`: presigning is a local
signature computation (`sign`), taking only the request parameters — the
bucket contents are never consulted and the key is not validated. -/
def get_presigned_url (st : ProcState) (sign : PresignRequest → String)
    (filename : String) : Response :=
  ⟨200, .obj [("url", .str (sign ⟨"get_object", S3_BUCKET_NAME st, filename, 3600⟩))]⟩

/-- The canonical textual form of a version-4 UUID (`str(uuid.uuid4())`,
8-4-4-4-12 hex digits with four dashes) is exactly 36 characters. -/
def IsUUIDRendering (u : String) : Prop := u.length = 36

/-- `s` contains `sub` as a substring. -/
def StrContains (s sub : String) : Prop := ∃ pre post, s = pre ++ sub ++ post

/-! ## Helper lemmas -/

/-- Splitting on a separator that does not occur yields the whole string
as the single piece (Python `s.split(sep) == [s]`). -/
theorem pySplit_of_not_mem (sep : Char) (l : List Char) (h : sep ∉ l) :
    pySplit sep l = [l] := by
  induction l with
  | nil => rfl
  | cons c cs ih =>
    have hcs : sep ∉ cs := fun hm => h (List.mem_cons_of_mem _ hm)
    have hc : ¬ c = sep := fun hc => h (hc ▸ List.mem_cons_self _ _)
    simp [pySplit, ih hcs, hc]

/-- A filename with no dot is its own derived extension. -/
theorem pyExt_no_dot (filename : String) (h : '.' ∉ filename.data) :
    pyExt filename = filename := by
  unfold pyExt
  rw [pySplit_of_not_mem _ _ h]
  rfl

/-- `env_empty`: an environment with no variable set. -/
def env_empty : Env := fun _ => none

/-- An environment in which only `FRONTEND_DOMAIN` has been (re)set —
a post-startup mutation of `env_empty`. -/
def env_frontend_changed : Env := fun k =>
  if k = "FRONTEND_DOMAIN" then some "https://changed.example" else none

/-! ## Claims -/

/-- C9: `GET /health` returns HTTP status 200 with body exactly
`{"status": "ok"}`; the handler takes no input and cannot fail. -/
theorem spec_C9_health_ok :
    health_check.status = 200 ∧ health_check.body = Json.obj [("status", Json.str "ok")] :=
  ⟨rfl, rfl⟩

/-- C1: an upload of a file named `photo.png` (whatever the content type,
size, startup configuration and generated identifier `u`) succeeds with a
key of the form `images/<u>.png` and a `file_url` containing that key. -/
theorem spec_C1_upload_photo_png_key_and_url (st : ProcState) (ct : String)
    (size : Nat) (u : String) :
    (upload_file st "photo.png" ct size u (.ok ())).status = 200 ∧
    (upload_file st "photo.png" ct size u (.ok ())).body.lookup "filename"
      = some (Json.str ("images/" ++ u ++ ".png")) ∧
    ∃ url, (upload_file st "photo.png" ct size u (.ok ())).body.lookup "file_url"
      = some (Json.str url) ∧ StrContains url ("images/" ++ u ++ ".png") := by
  have hkey : upload_key "photo.png" u = "images/" ++ u ++ ".png" := by
    show "images/" ++ u ++ "." ++ "png" = "images/" ++ u ++ ".png"
    rw [String.append_assoc]; rfl
  have h1 : (upload_file st "photo.png" ct size u (.ok ())).body.lookup "filename"
      = some (Json.str (upload_key "photo.png" u)) := rfl
  have h2 : (upload_file st "photo.png" ct size u (.ok ())).body.lookup "file_url"
      = some (Json.str ("https://" ++ pyOptStr (S3_BUCKET_NAME st)
          ++ ".s3.amazonaws.com/" ++ upload_key "photo.png" u)) := rfl
  rw [hkey] at h1 h2
  refine ⟨rfl, h1, _, h2, ?_⟩
  exact ⟨"https://" ++ pyOptStr (S3_BUCKET_NAME st) ++ ".s3.amazonaws.com/", "",
    by simp⟩

/-- C2: two uploads whose generated random identifiers differ produce
distinct object keys, whatever the two filenames (in particular for
byte-identical content); a uuid4 rendering is always 36 characters. -/
theorem spec_C2_distinct_keys (f1 f2 u1 u2 : String)
    (h1 : IsUUIDRendering u1) (h2 : IsUUIDRendering u2) (hne : u1 ≠ u2) :
    upload_key f1 u1 ≠ upload_key f2 u2 := by
  intro h
  apply hne
  apply String.ext
  have hd := congrArg String.data h
  simp only [upload_key, String.data_append, List.append_assoc] at hd
  have hd2 := List.append_cancel_left hd
  have hlen : u1.data.length = u2.data.length := by
    have e1 : u1.data.length = 36 := h1
    have e2 : u2.data.length = 36 := h2
    rw [e1, e2]
  exact (List.append_inj hd2 hlen).1

/-- C2 witness: two concrete uuid4 renderings differing in the last digit
give distinct keys for the same filename. -/
theorem spec_C2_distinct_keys_witness :
    upload_key "photo.png" "00000000-0000-4000-8000-000000000000"
      ≠ upload_key "photo.png" "00000000-0000-4000-8000-000000000001" :=
  spec_C2_distinct_keys "photo.png" "photo.png" _ _ rfl rfl (by decide)

/-- C10: when the filename contains no dot, the derived extension is the
whole filename, so the key is `images/<u>.<whole-filename>`; nothing
signals the missing extension. -/
theorem spec_C10_no_dot_filename (st : ProcState) (ct : String) (size : Nat)
    (u filename : String) (h : '.' ∉ filename.data) :
    (upload_file st filename ct size u (.ok ())).body.lookup "filename"
      = some (Json.str ("images/" ++ u ++ "." ++ filename)) := by
  have h1 : (upload_file st filename ct size u (.ok ())).body.lookup "filename"
      = some (Json.str (upload_key filename u)) := rfl
  rw [h1, upload_key, pyExt_no_dot filename h]

/-- C10 witness: uploading a file named `photo` (no dot) under identifier
`u` yields the key `images/u.photo`. -/
theorem spec_C10_no_dot_filename_witness :
    (upload_file ⟨env_empty, env_empty⟩ "photo" "image/png" 10 "u" (.ok ())).body.lookup "filename"
      = some (Json.str ("images/" ++ "u" ++ "." ++ "photo")) :=
  spec_C10_no_dot_filename ⟨env_empty, env_empty⟩ "image/png" 10 "u" "photo" (by decide)

/-- C3: whenever the connection or the query fails, `GET /api/data`
returns status 200 (FastAPI's default for a plain dict — the handler
never raises, both failure branches `return`) and a body carrying an
`"error"` field. -/
theorem spec_C3_db_errors_are_200_json (o : DBOutcome)
    (h : (∃ m, o = .connectError m) ∨ (∃ m, o = .queryError m)) :
    (get_data o).response.status = 200 ∧
    ∃ msg, (get_data o).response.body.lookup "error" = some (Json.str msg) := by
  rcases h with ⟨m, rfl⟩ | ⟨m, rfl⟩
  · exact ⟨rfl, _, rfl⟩
  · exact ⟨rfl, _, rfl⟩

/-- C3 witness: a concrete connection failure yields a 200 response with
an `"error"` field. -/
theorem spec_C3_db_errors_are_200_json_witness :
    (get_data (.connectError "connection refused")).response.status = 200 ∧
    ∃ msg, (get_data (.connectError "connection refused")).response.body.lookup "error"
      = some (Json.str msg) :=
  spec_C3_db_errors_are_200_json _ (Or.inl ⟨"connection refused", rfl⟩)

/-- C4: `GET /api/generate-presigned-url?filename=...` hands exactly the
requested key to the signer with the fixed expiry 3600 and the configured
bucket, for every filename (no validation), and returns the signed URL;
the signing never consults the bucket contents, so the key's existence is
irrelevant. -/
theorem spec_C4_presigned_exact_key_3600 (st : ProcState)
    (sign : PresignRequest → String) (filename : String) :
    ∃ req : PresignRequest,
      (get_presigned_url st sign filename).status = 200 ∧
      (get_presigned_url st sign filename).body.lookup "url"
        = some (Json.str (sign req)) ∧
      req.method = "get_object" ∧
      req.bucket = S3_BUCKET_NAME st ∧
      req.key = filename ∧
      req.expiresIn = 3600 :=
  ⟨⟨"get_object", S3_BUCKET_NAME st, filename, 3600⟩, rfl, rfl, rfl, rfl, rfl, rfl⟩

/-- C5: `GET /api/list-images` returns exactly the keys of one
unpaginated `list_objects_v2` page on the bucket at call time: every
returned key is in the bucket, and the count is `min 1000 n` for a bucket
of `n` keys — a bucket beyond one page is silently truncated. -/
theorem spec_C5_list_images_first_page (st : ProcState) (store : S3Store) :
    list_images st store
      = ⟨200, Json.obj [("images", Json.arr
          ((list_objects_v2_keys (store (S3_BUCKET_NAME st))).map Json.str))]⟩ ∧
    list_objects_v2_keys (store (S3_BUCKET_NAME st)) ⊆ store (S3_BUCKET_NAME st) ∧
    (list_objects_v2_keys (store (S3_BUCKET_NAME st))).length
      = min 1000 (store (S3_BUCKET_NAME st)).length :=
  ⟨rfl, List.take_subset _ _, List.length_take _ _⟩

/-- C6: `GET /api/debug-env` unconditionally returns status 200 with the
exact current values of all ten configured environment variables — the
AWS access key id and secret, the database credentials and the rest — in
plaintext. -/
theorem spec_C6_debug_env_leaks_all (st : ProcState) :
    (debug_env st).status = 200 ∧
    (debug_env st).body.lookup "AWS_ACCESS_KEY_ID"
      = some (jsonOfOpt (st.reqEnv "AWS_ACCESS_KEY_ID")) ∧
    (debug_env st).body.lookup "AWS_SECRET_ACCESS_KEY"
      = some (jsonOfOpt (st.reqEnv "AWS_SECRET_ACCESS_KEY")) ∧
    (debug_env st).body.lookup "AWS_REGION"
      = some (jsonOfOpt (st.reqEnv "AWS_REGION")) ∧
    (debug_env st).body.lookup "S3_BUCKET_NAME"
      = some (jsonOfOpt (st.reqEnv "S3_BUCKET_NAME")) ∧
    (debug_env st).body.lookup "DB_USER"
      = some (jsonOfOpt (st.reqEnv "DB_USER")) ∧
    (debug_env st).body.lookup "DB_PASSWORD"
      = some (jsonOfOpt (st.reqEnv "DB_PASSWORD")) ∧
    (debug_env st).body.lookup "DB_NAME"
      = some (jsonOfOpt (st.reqEnv "DB_NAME")) ∧
    (debug_env st).body.lookup "DB_HOST"
      = some (jsonOfOpt (st.reqEnv "DB_HOST")) ∧
    (debug_env st).body.lookup "DB_PORT"
      = some (jsonOfOpt (st.reqEnv "DB_PORT")) ∧
    (debug_env st).body.lookup "FRONTEND_DOMAIN"
      = some (jsonOfOpt (st.reqEnv "FRONTEND_DOMAIN")) :=
  ⟨rfl, rfl, rfl, rfl, rfl, rfl, rfl, rfl, rfl, rfl, rfl⟩

/-- C7 counterexample: on a query error the connection was opened but is
never closed — the exception on `fetchrow` (line 90) skips `conn.close()`
(line 91) and the `except` branch returns without closing. -/
theorem spec_C7_query_error_leaks_connection :
    (get_data (.queryError "relation does not exist")).connOpened = true ∧
    (get_data (.queryError "relation does not exist")).connClosed = false :=
  ⟨rfl, rfl⟩

/-- C7 amended: the connection opened by `GET /api/data` is closed exactly
when the query succeeds; on a query error the handler returns the error
payload without releasing the connection. -/
theorem spec_C7_close_iff_success (o : DBOutcome) :
    (get_data o).connClosed = true ↔ ∃ ts, o = .success ts := by
  cases o with
  | connectError m => simp [get_data]
  | queryError m => simp [get_data]
  | success ts => simp [get_data]

/-- C8 counterexample: two runs whose startup environments agree and which
differ only in a post-startup mutation of `FRONTEND_DOMAIN` give different
responses from the root handler — `root` calls `os.getenv` at request
time. -/
theorem spec_C8_root_reads_env_per_request :
    root ⟨env_empty, env_empty⟩ 0 ≠ root ⟨env_empty, env_frontend_changed⟩ 0 := by
  intro h
  have h2 := congrArg (fun r => r.body.lookup "origin") h
  simp [root, Json.lookup, List.lookup, env_empty, env_frontend_changed, jsonOfOpt] at h2

/-- C8 amended: only the object-store configuration (bucket name, client
credentials) is read once at startup — the upload, list-images and
presigned-URL handlers are unaffected by post-startup environment
mutations; the root, database and debug-env handlers read the environment
at request time. -/
theorem spec_C8_s3_handlers_startup_only (s1 s2 : ProcState)
    (h : s1.startupEnv = s2.startupEnv)
    (filename ct : String) (size : Nat) (u : String) (s3 : Except String Unit)
    (store : S3Store) (sign : PresignRequest → String) (f : String) :
    upload_file s1 filename ct size u s3 = upload_file s2 filename ct size u s3 ∧
    list_images s1 store = list_images s2 store ∧
    get_presigned_url s1 sign f = get_presigned_url s2 sign f := by
  obtain ⟨a1, b1⟩ := s1
  obtain ⟨a2, b2⟩ := s2
  have h' : a1 = a2 := h
  subst h'
  cases s3 <;> exact ⟨rfl, rfl, rfl⟩

/-- C8 witness: with an unchanged startup snapshot, mutating
`FRONTEND_DOMAIN` after startup leaves the three object-store handlers'
responses unchanged. -/
theorem spec_C8_s3_handlers_startup_only_witness :
    upload_file ⟨env_empty, env_empty⟩ "a.png" "image/png" 3 "u" (.ok ())
      = upload_file ⟨env_empty, env_frontend_changed⟩ "a.png" "image/png" 3 "u" (.ok ()) ∧
    list_images ⟨env_empty, env_empty⟩ (fun _ => [])
      = list_images ⟨env_empty, env_frontend_changed⟩ (fun _ => []) ∧
    get_presigned_url ⟨env_empty, env_empty⟩ (fun _ => "signed") "k"
      = get_presigned_url ⟨env_empty, env_frontend_changed⟩ (fun _ => "signed") "k" :=
  spec_C8_s3_handlers_startup_only ⟨env_empty, env_empty⟩
    ⟨env_empty, env_frontend_changed⟩ rfl "a.png" "image/png" 3 "u" (.ok ())
    (fun _ => []) (fun _ => "signed") "k"
